import Mathlib

/-!
Shallow embedding of the `pysumoapi` client library (`pysumoapi/client.py` and
the record models under `pysumoapi/models/` and `src/pysumoapi/models.py`).

Conventions of the embedding:
* Each endpoint method of `SumoClient` is embedded as a pure function from its
  arguments (plus the current wall-clock time `now`, where the source calls
  `datetime.now()`, and the client state) to `Except PyError HttpRequest`.
  Returning `.ok req` means the method passes all of its local validation and
  hands the request `req` to the HTTP transport; returning `.error e` means the
  corresponding Python exception is raised before any HTTP request is issued.
* Python strings are Lean `String`s; the Python semantics of `str.isdigit`,
  `int(...)` and slicing are embedded for the ASCII fragment.
* Machine integers are `Int`; retry counts are `Nat`.
* The response side (retry loop, `raise_for_status`, JSON parsing into the
  pydantic models) is embedded separately: the transport behaviour of a run is
  a function `Nat → AttemptOutcome` giving the outcome of each attempt.
-/

namespace PySumo

/-! ## Python string primitives (ASCII fragment) -/

/-- ASCII decimal digit test; embeds the digit test of Python `str.isdigit`
for ASCII strings. -/
def pyIsAsciiDigit (c : Char) : Bool := '0' ≤ c && c ≤ '9'

/-- Embeds Python `s.isdigit()` for ASCII strings: non-empty and all digits. -/
def pyIsDigit (s : String) : Bool :=
  s.length != 0 && s.data.all pyIsAsciiDigit

/-- ASCII whitespace for Python `int()` argument stripping. -/
def pyIsSpace (c : Char) : Bool :=
  c = ' ' || c = '\t' || c = '\n' || c = '\r' || c = '\x0B' || c = '\x0C'

/-- Strip leading and trailing whitespace from a character list. -/
def stripChars (cs : List Char) : List Char :=
  ((cs.dropWhile pyIsSpace).reverse.dropWhile pyIsSpace).reverse

/-- No two consecutive underscores occur in the list. -/
def noDoubleUnderscore : List Char → Bool
  | a :: b :: rest => !(a = '_' && b = '_') && noDoubleUnderscore (b :: rest)
  | _ => true

/-- Valid digit run for Python `int()`: non-empty, starts and ends with a
digit, contains only digits and single underscores between digits. -/
def underscoreDigitsOk (cs : List Char) : Bool :=
  !cs.isEmpty
    && pyIsAsciiDigit (cs.headD '_')
    && pyIsAsciiDigit (cs.getLastD '_')
    && cs.all (fun c => pyIsAsciiDigit c || c = '_')
    && noDoubleUnderscore cs

/-- Decimal value of a digit list. -/
def digitsVal (cs : List Char) : Nat :=
  cs.foldl (fun a c => a * 10 + (c.toNat - 48)) 0

/-- Value of the digit part of a Python integer literal, `none` on a
malformed run. -/
def pyIntDigits (cs : List Char) : Option Nat :=
  if underscoreDigitsOk cs then some (digitsVal (cs.filter pyIsAsciiDigit)) else none

/-- Embeds Python `int(s)` for ASCII strings: strip whitespace, optional
sign, digits with optional single underscores; `none` models the raised
`ValueError`. -/
def pyInt (s : String) : Option Int :=
  match stripChars s.data with
  | '+' :: rest => (pyIntDigits rest).map Int.ofNat
  | '-' :: rest => (pyIntDigits rest).map fun n => -(n : Int)
  | cs => (pyIntDigits cs).map Int.ofNat

/-- Embeds Python `s.rstrip("/")`. -/
def rstripSlash (s : String) : String :=
  ⟨(s.data.reverse.dropWhile (· = '/')).reverse⟩

/-- Embeds Python `str(b).lower()` for a boolean. -/
def pyBoolStr (b : Bool) : String := if b then "true" else "false"

/-- Truthiness of an optional Python string (`None` and `""` are falsy). -/
def optStrTruthy : Option String → Bool
  | none => false
  | some s => s != ""

/-- Truthiness of an optional Python integer (`None` and `0` are falsy). -/
def optIntTruthy : Option Int → Bool
  | none => false
  | some n => n != 0

/-- Does the pattern match at the head of the list? -/
def matchesAt : List Char → List Char → Bool
  | [], _ => true
  | _ :: _, [] => false
  | p :: ps, c :: cs => p == c && matchesAt ps cs

/-- Does the pattern occur anywhere in the list? -/
def hasSub (pat : List Char) : List Char → Bool
  | [] => matchesAt pat []
  | c :: cs => matchesAt pat (c :: cs) || hasSub pat cs

/-- Embeds the Python substring test `pat in hay`. -/
def strContainsSub (hay pat : String) : Bool := hasSub pat.data hay.data

/-- Replace every non-overlapping occurrence of `pat` (left to right) by
`repl`; embeds Python `str.replace` for a non-empty pattern. -/
def replaceSub (pat repl : List Char) (hay : List Char) : List Char :=
  if _hpat : pat.length = 0 then hay
  else
    match hay with
    | [] => []
    | c :: cs =>
      if matchesAt pat (c :: cs) then
        repl ++ replaceSub pat repl ((c :: cs).drop pat.length)
      else
        c :: replaceSub pat repl cs
termination_by hay.length
decreasing_by
  · simp only [List.length_drop, List.length_cons]
    omega
  · simp only [List.length_cons]
    omega

/-! ## Python `datetime` (the fragment used by the client) -/

/-- Embeds `datetime.datetime` values; comparison is lexicographic on the
components, as in CPython. -/
structure PyDateTime where
  year : Int
  month : Int
  day : Int
  hour : Int := 0
  minute : Int := 0
  second : Int := 0
  microsecond : Int := 0
deriving DecidableEq, Repr

/-- Leap-year rule of the proleptic Gregorian calendar used by `datetime`. -/
def isLeapYear (y : Int) : Bool :=
  (y % 4 = 0 && y % 100 != 0) || y % 400 = 0

/-- Number of days in a month, as validated by the `datetime` constructor. -/
def daysInMonth (y m : Int) : Int :=
  if m = 2 then (if isLeapYear y then 29 else 28)
  else if m = 4 || m = 6 || m = 9 || m = 11 then 30
  else 31

/-- Embeds the `datetime(year, month, day)` constructor: `none` models the
`ValueError` raised on an out-of-range component. -/
def mkDatetime (y m d : Int) : Option PyDateTime :=
  if 1 ≤ y && y ≤ 9999 && 1 ≤ m && m ≤ 12 && 1 ≤ d && d ≤ daysInMonth y m then
    some { year := y, month := m, day := d }
  else none

/-- Embeds `datetime` comparison `a < b`: lexicographic on the components. -/
def PyDateTime.ltb (a b : PyDateTime) : Bool :=
  if a.year ≠ b.year then decide (a.year < b.year)
  else if a.month ≠ b.month then decide (a.month < b.month)
  else if a.day ≠ b.day then decide (a.day < b.day)
  else if a.hour ≠ b.hour then decide (a.hour < b.hour)
  else if a.minute ≠ b.minute then decide (a.minute < b.minute)
  else if a.second ≠ b.second then decide (a.second < b.second)
  else decide (a.microsecond < b.microsecond)

/-! ## JSON values -/

/-- JSON values, as decoded from a response body. -/
inductive Json where
  | null
  | bool (b : Bool)
  | num (n : Int)
  | str (s : String)
  | arr (xs : List Json)
  | obj (fields : List (String × Json))

/-- Key lookup in a JSON object (first occurrence). -/
def Json.lookup : Json → String → Option Json
  | .obj fields, k => fields.lookup k
  | _, _ => none

/-! ## Errors raised by the client -/

/-- Kinds of transport-level failures of one HTTP attempt. -/
inductive TransportFailure where
  | connectionFailure
  | timeoutExpired
deriving DecidableEq, Repr

/-- Python exceptions the client can raise, as observed by a caller. -/
inductive PyError where
  /-- `ValueError`, raised by the local argument validation (and by the
  `int` and `datetime` primitives). -/
  | valueError (msg : String)
  /-- `RuntimeError`, raised when the client is used outside its context
  manager. -/
  | runtimeError (msg : String)
  /-- `TypeError`, raised by an unsupported primitive operation such as
  comparing `None` with an integer. -/
  | typeError (msg : String)
  /-- `httpx.HTTPStatusError` from `response.raise_for_status()`: carries the
  remote status code and the response body. -/
  | httpStatusError (status : Nat) (body : Json)
  /-- A transport exception (connection failure or timeout) surfacing from
  the transport after retries are exhausted. -/
  | transportError (kind : TransportFailure)

/-- Is the outcome a raised `ValueError`? -/
def isValueError {α : Type} : Except PyError α → Bool
  | .error (.valueError _) => true
  | _ => false

/-- Is the outcome a raised `RuntimeError`? -/
def isRuntimeErr {α : Type} : Except PyError α → Bool
  | .error (.runtimeError _) => true
  | _ => false

/-- Did the computation succeed? -/
def isOkResult {α : Type} : Except PyError α → Bool
  | .ok _ => true
  | .error _ => false

/-! ## Client state, constructor and context manager -/

/-- State of a `SumoClient` instance: the constructor arguments plus whether
`self._client` is set (`clientOpen`). Embeds `SumoClient.__init__`, which
accepts exactly the parameters `base_url`, `timeout` and `retries`. -/
structure ClientState where
  base_url : String
  timeout : Option ℚ
  retries : Nat
  clientOpen : Bool
deriving DecidableEq, Repr

/-- Names of the parameters accepted by `SumoClient.__init__` (besides
`self`), in order. -/
def constructorParams : List String := ["base_url", "timeout", "retries"]

/-- Embeds `SumoClient.__init__`: stores `base_url.rstrip("/")`, `timeout`
and `retries`, and leaves `self._client` unset. Source defaults are
`base_url="https://sumo-api.com/api"`, `timeout=None`, `retries=3`. -/
def SumoClient.init (base_url : String) (timeout : Option ℚ) (retries : Nat) :
    ClientState :=
  { base_url := rstripSlash base_url, timeout := timeout, retries := retries,
    clientOpen := false }

/-- Configuration of the transport stack built in `__aenter__`:
`Retry(total=self.retries, backoff_factor=0.5)` wrapped in a
`RetryTransport`, and `httpx.AsyncClient(..., timeout=self.timeout, ...)`. -/
structure Transport where
  retryTotal : Nat
  retryBackoffFactor : ℚ
  timeout : Option ℚ
deriving DecidableEq, Repr

/-- Embeds `SumoClient.__aenter__`: builds the transport from the stored
configuration (with the backoff factor written as the literal `0.5`) and
sets `self._client`. -/
def aenter (st : ClientState) : ClientState × Transport :=
  ({ st with clientOpen := true },
   { retryTotal := st.retries, retryBackoffFactor := 1/2, timeout := st.timeout })

/-- Embeds `SumoClient.__aexit__`: closes and clears `self._client` when it
is set. -/
def aexit (st : ClientState) : ClientState :=
  if st.clientOpen then { st with clientOpen := false } else st

/-! ## Request construction (`_make_request` before the network call) -/

/-- An outbound HTTP request as handed to the transport. -/
structure HttpRequest where
  method : String
  url : String
  queryParams : List (String × String)
deriving DecidableEq, Repr

/-- Embeds `path.format(**path_params)`: substitute each `\x7bname\x7d`
placeholder by its value. -/
def formatPath (path : String) (args : List (String × String)) : String :=
  args.foldl
    (fun p kv => ⟨replaceSub ("\x7b" ++ kv.1 ++ "\x7d").data kv.2.data p.data⟩)
    path

/-- Embeds the pre-network part of `SumoClient._make_request`: raise
`RuntimeError` when `self._client` is unset, otherwise split `params` into
path parameters (those whose `\x7bname\x7d` occurs in the path) and query
parameters, and format the path. `.ok` means the request is handed to the
transport. -/
def makeRequestPre (st : ClientState) (method path : String)
    (params : List (String × String)) : Except PyError HttpRequest :=
  if !st.clientOpen then
    .error (.runtimeError "Client not initialized. Use async with context manager.")
  else
    let pathParams := params.filter fun kv =>
      strContainsSub path ("\x7b" ++ kv.1 ++ "\x7d")
    let queryParams := params.filter fun kv =>
      !strContainsSub path ("\x7b" ++ kv.1 ++ "\x7d")
    .ok { method := method, url := formatPath path pathParams,
          queryParams := queryParams }

/-! ## The dispatcher: retry loop and error normalisation -/

/-- Outcome of one HTTP attempt made by the transport. -/
inductive AttemptOutcome where
  | connectionFailure
  | timeoutExpired
  | response (status : Nat) (body : Json)

/-- Modelled from the spec: the retry policy of the transport stack built in
`__aenter__` (`RetryTransport`/`Retry` of the external `httpx_retries`
package, whose code is not part of this repository). Per the spec, the
dispatcher retries on connection failures, timeouts, and the retryable HTTP
statuses 408 and 429. -/
def isTransient : AttemptOutcome → Bool
  | .connectionFailure => true
  | .timeoutExpired => true
  | .response status _ => status == 408 || status == 429

/-- Modelled from the spec: the retry loop of the transport stack built in
`__aenter__` (`RetryTransport` of the external `httpx_retries` package,
whose code is not part of this repository). Starting at attempt index `k`
with `n` retries left, repeat an attempt while its outcome is transient and
the retry budget is not exhausted; surface the last outcome otherwise.
Returns the total number of attempts made and the final outcome. -/
def runRetry (outcomes : Nat → AttemptOutcome) : Nat → Nat → Nat × AttemptOutcome
  | k, 0 => (k + 1, outcomes k)
  | k, n + 1 =>
    if isTransient (outcomes k) then runRetry outcomes (k + 1) n
    else (k + 1, outcomes k)

/-- Embeds `response.raise_for_status()` composed with `response.json()`:
an error status (4xx or 5xx) raises `httpx.HTTPStatusError` carrying the
status and body; otherwise the body is returned. A surfaced transport
exception propagates unchanged. -/
def outcomeResult : AttemptOutcome → Except PyError Json
  | .connectionFailure => .error (.transportError .connectionFailure)
  | .timeoutExpired => .error (.transportError .timeoutExpired)
  | .response status body =>
    if 400 ≤ status && status < 600 then .error (.httpStatusError status body)
    else .ok body

/-- The error a final attempt outcome surfaces as, through the transport
(for exceptions) or `raise_for_status` (for error statuses). -/
def outcomeError : AttemptOutcome → PyError
  | .connectionFailure => .transportError .connectionFailure
  | .timeoutExpired => .transportError .timeoutExpired
  | .response status body => .httpStatusError status body

/-- The network part of `SumoClient._make_request` for a run whose per-attempt
transport outcomes are `outcomes`: run the retry loop with the configured
retry budget, then normalise the final outcome. Returns the number of
attempts made together with the result. -/
def dispatch (retryTotal : Nat) (outcomes : Nat → AttemptOutcome) :
    Nat × Except PyError Json :=
  let r := runRetry outcomes 0 retryTotal
  (r.1, outcomeResult r.2)

/-! ## Record models

The `Measurement`, `Rank` and `Shikona` records imported by `client.py` are
not present under the `pysumoapi/models/` package in the repository tree; the
same record shapes are declared in `src/pysumoapi/models.py` as
`MeasurementHistory`, `RankHistory` and `ShikonaHistory`, and those
declarations are what is embedded here. `datetime`-valued model fields are
kept as their source strings. -/

/-- Embeds `RankHistory` (`src/pysumoapi/models.py`): field aliases
`bashoId`, `rikishiId`, `rankValue`. -/
structure Rank where
  id : String
  basho_id : String
  rikishi_id : Int
  rank_value : Int
  rank : String
deriving DecidableEq, Repr

/-- Embeds `ShikonaHistory` (`src/pysumoapi/models.py`): field aliases
`bashoId`, `rikishiId`, `shikonaEn`, `shikonaJp`. -/
structure Shikona where
  id : String
  basho_id : String
  rikishi_id : Int
  shikona_en : String
  shikona_jp : String
deriving DecidableEq, Repr

/-- Embeds `MeasurementHistory` (`src/pysumoapi/models.py`): field aliases
`bashoId`, `rikishiId`. -/
structure Measurement where
  id : String
  basho_id : String
  rikishi_id : Int
  height : Int
  weight : Int
deriving DecidableEq, Repr

/-- Embeds the `Rikishi` pydantic model (`src/pysumoapi/models.py`): remote
camel-case keys are renamed to the snake-case internal fields via the
declared `Field(alias=...)` mapping. -/
structure Rikishi where
  id : Int
  sumodb_id : Option Int
  nsk_id : Option Int
  shikona_en : String
  shikona_jp : String
  current_rank : String
  heya : String
  birth_date : String
  shusshin : Option String
  height : Option Int
  weight : Option Int
  debut : Option String
  rank_history : Option (List Rank)
  shikona_history : Option (List Shikona)
  measurement_history : Option (List Measurement)
  updated_at : String
deriving DecidableEq, Repr

/-! ## Parsing (`Model.model_validate`) -/

/-- Required integer field. -/
def reqInt (j : Json) (k : String) : Option Int :=
  match j.lookup k with
  | some (.num n) => some n
  | _ => none

/-- Required string field. -/
def reqStr (j : Json) (k : String) : Option String :=
  match j.lookup k with
  | some (.str s) => some s
  | _ => none

/-- Optional integer field with default `None`: absent or `null` parses to
`none`; a present value must be an integer. -/
def optFieldInt (j : Json) (k : String) : Option (Option Int) :=
  match j.lookup k with
  | none => some none
  | some .null => some none
  | some (.num n) => some (some n)
  | some _ => none

/-- Optional string field with default `None`. -/
def optFieldStr (j : Json) (k : String) : Option (Option String) :=
  match j.lookup k with
  | none => some none
  | some .null => some none
  | some (.str s) => some (some s)
  | some _ => none

/-- Optional list field with default `None`, elements parsed by `p`. -/
def optFieldList {α : Type} (j : Json) (k : String) (p : Json → Option α) :
    Option (Option (List α)) :=
  match j.lookup k with
  | none => some none
  | some .null => some none
  | some (.arr xs) => (xs.mapM p).map some
  | some _ => none

/-- Embeds `RankHistory.model_validate` on a decoded JSON value. -/
def Rank.parse (j : Json) : Option Rank := do
  let id ← reqStr j "id"
  let basho_id ← reqStr j "bashoId"
  let rikishi_id ← reqInt j "rikishiId"
  let rank_value ← reqInt j "rankValue"
  let rank ← reqStr j "rank"
  pure { id, basho_id, rikishi_id, rank_value, rank }

/-- Embeds `ShikonaHistory.model_validate` on a decoded JSON value. -/
def Shikona.parse (j : Json) : Option Shikona := do
  let id ← reqStr j "id"
  let basho_id ← reqStr j "bashoId"
  let rikishi_id ← reqInt j "rikishiId"
  let shikona_en ← reqStr j "shikonaEn"
  let shikona_jp ← reqStr j "shikonaJp"
  pure { id, basho_id, rikishi_id, shikona_en, shikona_jp }

/-- Embeds `MeasurementHistory.model_validate` on a decoded JSON value. -/
def Measurement.parse (j : Json) : Option Measurement := do
  let id ← reqStr j "id"
  let basho_id ← reqStr j "bashoId"
  let rikishi_id ← reqInt j "rikishiId"
  let height ← reqInt j "height"
  let weight ← reqInt j "weight"
  pure { id, basho_id, rikishi_id, height, weight }

/-- Embeds `Rikishi.model_validate` on a decoded JSON value: each internal
field is read from its remote key per the declared alias mapping. -/
def Rikishi.parse (j : Json) : Option Rikishi := do
  let id ← reqInt j "id"
  let sumodb_id ← optFieldInt j "sumodbId"
  let nsk_id ← optFieldInt j "nskId"
  let shikona_en ← reqStr j "shikonaEn"
  let shikona_jp ← reqStr j "shikonaJp"
  let current_rank ← reqStr j "currentRank"
  let heya ← reqStr j "heya"
  let birth_date ← reqStr j "birthDate"
  let shusshin ← optFieldStr j "shusshin"
  let height ← optFieldInt j "height"
  let weight ← optFieldInt j "weight"
  let debut ← optFieldStr j "debut"
  let rank_history ← optFieldList j "rankHistory" Rank.parse
  let shikona_history ← optFieldList j "shikonaHistory" Shikona.parse
  let measurement_history ← optFieldList j "measurementHistory" Measurement.parse
  let updated_at ← reqStr j "updatedAt"
  pure { id, sumodb_id, nsk_id, shikona_en, shikona_jp, current_rank, heya,
         birth_date, shusshin, height, weight, debut, rank_history,
         shikona_history, measurement_history, updated_at }

/-! ## Endpoint methods (local validation and request construction) -/

/-- Embeds the source check `basho_id.isdigit() and len(basho_id) == 6`. -/
def valid6 (s : String) : Bool := pyIsDigit s && s.length == 6

/-- The `valid_divisions` list of `get_banzuke` and `get_torikumi`. -/
def validDivisions : List String :=
  ["Makuuchi", "Juryo", "Makushita", "Sandanme", "Jonidan", "Jonokuchi"]

/-- Embeds `SumoClient.get_rikishi` up to the network call. -/
def get_rikishi (st : ClientState) (rikishi_id : String) :
    Except PyError HttpRequest :=
  makeRequestPre st "GET" "/rikishi/\x7brikishi_id\x7d"
    [("rikishi_id", rikishi_id)]

/-- Embeds `SumoClient.get_rikishi_stats` up to the network call. -/
def get_rikishi_stats (st : ClientState) (rikishi_id : String) :
    Except PyError HttpRequest :=
  makeRequestPre st "GET" "/rikishi/\x7brikishi_id\x7d/stats"
    [("rikishi_id", rikishi_id)]

/-- Embeds `SumoClient.get_rikishis` up to the network call. Source defaults:
all filters `None`, the three include flags `True`, `limit=10`, `skip=0`.
The method performs no validation of its arguments. -/
def get_rikishis (st : ClientState) (shikona_en heya : Option String)
    (sumodb_id nsk_id : Option Int) (intai : Option Bool)
    (measurements ranks shikonas : Bool) (limit skip : Int) :
    Except PyError HttpRequest :=
  let params := [("limit", toString limit), ("skip", toString skip),
                 ("measurements", pyBoolStr measurements),
                 ("ranks", pyBoolStr ranks),
                 ("shikonas", pyBoolStr shikonas)]
  let params := params ++
    (if optStrTruthy shikona_en then [("shikonaEn", shikona_en.getD "")] else [])
  let params := params ++
    (if optStrTruthy heya then [("heya", heya.getD "")] else [])
  let params := params ++
    (if optIntTruthy sumodb_id then [("sumodbId", toString (sumodb_id.getD 0))] else [])
  let params := params ++
    (if optIntTruthy nsk_id then [("nskId", toString (nsk_id.getD 0))] else [])
  let params := params ++
    (match intai with | none => [] | some b => [("intai", pyBoolStr b)])
  makeRequestPre st "GET" "/rikishis" params

/-- Embeds `SumoClient.get_rikishi_matches` up to the network call. -/
def get_rikishi_matches (st : ClientState) (rikishi_id : Int)
    (basho_id : Option String) : Except PyError HttpRequest :=
  if rikishi_id ≤ 0 then .error (.valueError "Rikishi ID must be positive")
  else if optStrTruthy basho_id && !valid6 (basho_id.getD "") then
    .error (.valueError "Basho ID must be in YYYYMM format")
  else
    let params :=
      if optStrTruthy basho_id then [("bashoId", basho_id.getD "")] else []
    makeRequestPre st "GET" "/rikishi/\x7brikishi_id\x7d/matches"
      ([("rikishi_id", toString rikishi_id)] ++ params)

/-- Embeds `SumoClient.get_rikishi_opponent_matches` up to the network
call. -/
def get_rikishi_opponent_matches (st : ClientState) (rikishi_id opponent_id : Int)
    (basho_id : Option String) : Except PyError HttpRequest :=
  if rikishi_id ≤ 0 then .error (.valueError "Rikishi ID must be positive")
  else if opponent_id ≤ 0 then .error (.valueError "Opponent ID must be positive")
  else if optStrTruthy basho_id && !valid6 (basho_id.getD "") then
    .error (.valueError "Basho ID must be in YYYYMM format")
  else
    let params :=
      if optStrTruthy basho_id then [("bashoId", basho_id.getD "")] else []
    makeRequestPre st "GET" "/rikishi/\x7brikishi_id\x7d/matches/\x7bopponent_id\x7d"
      ([("rikishi_id", toString rikishi_id),
        ("opponent_id", toString opponent_id)] ++ params)

/-- Embeds `SumoClient.get_basho` up to the network call. `now` is the value
of `datetime.now()` at the call. -/
def get_basho (st : ClientState) (now : PyDateTime) (basho_id : String) :
    Except PyError HttpRequest :=
  if !valid6 basho_id then .error (.valueError "Basho ID must be in YYYYMM format")
  else
    match pyInt (basho_id.take 4), pyInt (basho_id.drop 4) with
    | some year, some month =>
      match mkDatetime year month 1 with
      | none => .error (.valueError "bad year, month or day for datetime")
      | some basho_date =>
        if PyDateTime.ltb now basho_date then
          .error (.valueError "Cannot get details for future basho")
        else
          makeRequestPre st "GET" ("/basho/" ++ basho_id) []
    | _, _ => .error (.valueError "invalid literal for int with base 10")

/-- Embeds `SumoClient.get_banzuke` up to the network call. The `try` block
of the source maps a failure of `int` or of the `datetime` constructor to
`ValueError("Basho ID must be in YYYYMM format")`. -/
def get_banzuke (st : ClientState) (now : PyDateTime) (basho_id division : String) :
    Except PyError HttpRequest :=
  match pyInt (basho_id.take 4), pyInt (basho_id.drop 4) with
  | some year, some month =>
    match mkDatetime year month 1 with
    | none => .error (.valueError "Basho ID must be in YYYYMM format")
    | some basho_date =>
      if PyDateTime.ltb now basho_date then
        .error (.valueError "Cannot fetch future basho")
      else if !validDivisions.contains division then
        .error (.valueError "Invalid division")
      else
        makeRequestPre st "GET" "/basho/\x7bbasho_id\x7d/banzuke/\x7bdivision\x7d"
          [("basho_id", basho_id), ("division", division)]
  | _, _ => .error (.valueError "Basho ID must be in YYYYMM format")

/-- Embeds `SumoClient.get_torikumi` up to the network call. -/
def get_torikumi (st : ClientState) (now : PyDateTime)
    (basho_id division : String) (day : Int) : Except PyError HttpRequest :=
  match pyInt (basho_id.take 4), pyInt (basho_id.drop 4) with
  | some year, some month =>
    match mkDatetime year month 1 with
    | none => .error (.valueError "Basho ID must be in YYYYMM format")
    | some basho_date =>
      if PyDateTime.ltb now basho_date then
        .error (.valueError "Cannot fetch future basho")
      else if !validDivisions.contains division then
        .error (.valueError "Invalid division")
      else if !(1 ≤ day && day ≤ 15 : Bool) then
        .error (.valueError "Day must be between 1 and 15")
      else
        makeRequestPre st "GET"
          "/basho/\x7bbasho_id\x7d/torikumi/\x7bdivision\x7d/\x7bday\x7d"
          [("basho_id", basho_id), ("division", division),
           ("day", toString day)]
  | _, _ => .error (.valueError "Basho ID must be in YYYYMM format")

/-- Embeds `SumoClient.get_kimarite` up to the network call. Source
defaults: `sort_field=None`, `sort_order="asc"`, `limit=None`, `skip=0`.
A `None` skip reaches the comparison `skip < 0` and raises `TypeError`. -/
def get_kimarite (st : ClientState) (sort_field sort_order : Option String)
    (limit skip : Option Int) : Except PyError HttpRequest :=
  if optStrTruthy sort_field
      && !(["count", "kimarite", "lastUsage"].contains (sort_field.getD "")) then
    .error (.valueError "Invalid sort field. Must be one of: count, kimarite, lastUsage")
  else if optStrTruthy sort_order
      && !(["asc", "desc"].contains (sort_order.getD "")) then
    .error (.valueError "Sort order must be either asc or desc")
  else if limit.isSome && decide (limit.getD 0 ≤ 0) then
    .error (.valueError "Limit must be a positive integer")
  else
    match skip with
    | none => .error (.typeError "unsupported comparison of NoneType and int")
    | some sk =>
      if sk < 0 then .error (.valueError "Skip must be a non-negative integer")
      else
        let params :=
          (if optStrTruthy sort_field then [("sortField", sort_field.getD "")] else [])
          ++ (if optStrTruthy sort_order then [("sortOrder", sort_order.getD "")] else [])
          ++ (if limit.isSome then [("limit", toString (limit.getD 0))] else [])
          ++ [("skip", toString sk)]
        makeRequestPre st "GET" "/kimarite" params

/-- Embeds `SumoClient.get_kimarite_matches` up to the network call. Source
defaults: `sort_order="asc"`, `limit=None`, `skip=0`. -/
def get_kimarite_matches (st : ClientState) (kimarite : String)
    (sort_order : Option String) (limit skip : Option Int) :
    Except PyError HttpRequest :=
  if kimarite == "" then .error (.valueError "Kimarite cannot be empty")
  else if optStrTruthy sort_order
      && !(["asc", "desc"].contains (sort_order.getD "")) then
    .error (.valueError "Sort order must be either asc or desc")
  else if limit.isSome && decide (limit.getD 0 ≤ 0) then
    .error (.valueError "Limit must be a positive integer")
  else if limit.isSome && decide (limit.getD 0 > 1000) then
    .error (.valueError "Limit cannot exceed 1000")
  else
    match skip with
    | none => .error (.typeError "unsupported comparison of NoneType and int")
    | some sk =>
      if sk < 0 then .error (.valueError "Skip must be a non-negative integer")
      else
        let params :=
          (if optStrTruthy sort_order then [("sortOrder", sort_order.getD "")] else [])
          ++ (if limit.isSome then [("limit", toString (limit.getD 0))] else [])
          ++ [("skip", toString sk)]
        makeRequestPre st "GET" "/kimarite/\x7bkimarite\x7d"
          ([("kimarite", kimarite)] ++ params)

/-- Embeds `SumoClient.get_measurements` up to the network call. Source
defaults: `basho_id=None`, `rikishi_id=None`, `sort_order="desc"`. -/
def get_measurements (st : ClientState) (basho_id : Option String)
    (rikishi_id : Option Int) (sort_order : Option String) :
    Except PyError HttpRequest :=
  if !optStrTruthy basho_id && !optIntTruthy rikishi_id then
    .error (.valueError "Either basho_id or rikishi_id must be provided")
  else if optStrTruthy basho_id && !valid6 (basho_id.getD "") then
    .error (.valueError "Basho ID must be in YYYYMM format")
  else if rikishi_id.isSome && decide (rikishi_id.getD 0 ≤ 0) then
    .error (.valueError "Rikishi ID must be positive")
  else if optStrTruthy sort_order
      && !(["asc", "desc"].contains (sort_order.getD "")) then
    .error (.valueError "Sort order must be either asc or desc")
  else
    let params :=
      (if optStrTruthy basho_id then [("bashoId", basho_id.getD "")] else [])
      ++ (if optIntTruthy rikishi_id then [("rikishiId", toString (rikishi_id.getD 0))] else [])
    makeRequestPre st "GET" "/measurements" params

/-- Embeds `SumoClient.get_ranks` up to the network call; its validation is
identical to `get_measurements`. -/
def get_ranks (st : ClientState) (basho_id : Option String)
    (rikishi_id : Option Int) (sort_order : Option String) :
    Except PyError HttpRequest :=
  if !optStrTruthy basho_id && !optIntTruthy rikishi_id then
    .error (.valueError "Either basho_id or rikishi_id must be provided")
  else if optStrTruthy basho_id && !valid6 (basho_id.getD "") then
    .error (.valueError "Basho ID must be in YYYYMM format")
  else if rikishi_id.isSome && decide (rikishi_id.getD 0 ≤ 0) then
    .error (.valueError "Rikishi ID must be positive")
  else if optStrTruthy sort_order
      && !(["asc", "desc"].contains (sort_order.getD "")) then
    .error (.valueError "Sort order must be either asc or desc")
  else
    let params :=
      (if optStrTruthy basho_id then [("bashoId", basho_id.getD "")] else [])
      ++ (if optIntTruthy rikishi_id then [("rikishiId", toString (rikishi_id.getD 0))] else [])
    makeRequestPre st "GET" "/ranks" params

/-- Embeds `SumoClient.get_shikonas` up to the network call; its validation
is identical to `get_measurements`. -/
def get_shikonas (st : ClientState) (basho_id : Option String)
    (rikishi_id : Option Int) (sort_order : Option String) :
    Except PyError HttpRequest :=
  if !optStrTruthy basho_id && !optIntTruthy rikishi_id then
    .error (.valueError "Either basho_id or rikishi_id must be provided")
  else if optStrTruthy basho_id && !valid6 (basho_id.getD "") then
    .error (.valueError "Basho ID must be in YYYYMM format")
  else if rikishi_id.isSome && decide (rikishi_id.getD 0 ≤ 0) then
    .error (.valueError "Rikishi ID must be positive")
  else if optStrTruthy sort_order
      && !(["asc", "desc"].contains (sort_order.getD "")) then
    .error (.valueError "Sort order must be either asc or desc")
  else
    let params :=
      (if optStrTruthy basho_id then [("bashoId", basho_id.getD "")] else [])
      ++ (if optIntTruthy rikishi_id then [("rikishiId", toString (rikishi_id.getD 0))] else [])
    makeRequestPre st "GET" "/shikonas" params

/-! ## Local sorting of history records -/

/-- Embeds `list.sort(key=..., reverse=...)` with a string key: CPython
sorts stably ascending by key, and descending when `reverse` is true. -/
def pySortByKey {α : Type} (key : α → String) (records : List α)
    (reverse : Bool) : List α :=
  if reverse then records.mergeSort (fun a b => decide (key b ≤ key a))
  else records.mergeSort (fun a b => decide (key a ≤ key b))

/-- Embeds the response post-processing of `get_measurements`: when
`sort_order` is truthy, sort the parsed records in place by `basho_id`,
descending exactly when `sort_order == "desc"`. -/
def processMeasurements (ms : List Measurement) (sort_order : Option String) :
    List Measurement :=
  if optStrTruthy sort_order then
    pySortByKey (fun m => m.basho_id) ms (sort_order == some "desc")
  else ms

/-- Embeds the response post-processing of `get_ranks`. -/
def processRanks (rs : List Rank) (sort_order : Option String) : List Rank :=
  if optStrTruthy sort_order then
    pySortByKey (fun r => r.basho_id) rs (sort_order == some "desc")
  else rs

/-- Embeds the response post-processing of `get_shikonas`. -/
def processShikonas (ss : List Shikona) (sort_order : Option String) :
    List Shikona :=
  if optStrTruthy sort_order then
    pySortByKey (fun s => s.basho_id) ss (sort_order == some "desc")
  else ss

/-! ## Sample values used to instantiate the theorems -/

/-- A client constructed with the source defaults and entered as a context
manager (`self._client` is set). -/
def openState : ClientState :=
  (aenter (SumoClient.init "https://sumo-api.com/api" none 3)).1

/-- A client constructed with the source defaults and never entered. -/
def closedState : ClientState :=
  SumoClient.init "https://sumo-api.com/api" none 3

/-- A sample wall-clock instant (2025-10-12 00:00:00). -/
def nowSample : PyDateTime := { year := 2025, month := 10, day := 12 }

/-- A sample response payload for `/rikishi/1511`, shaped like the remote
schema. -/
def rikishiPayload : Json :=
  .obj [("id", .num 1511), ("sumodbId", .num 11927), ("nskId", .num 3321),
        ("shikonaEn", .str "Terunofuji Haruo"), ("shikonaJp", .str "Terunofuji"),
        ("currentRank", .str "Yokozuna 1 East"), ("heya", .str "Isegahama"),
        ("birthDate", .str "1991-11-29T00:00:00Z"),
        ("shusshin", .str "Mongolia, Ulaanbaatar"),
        ("height", .num 192), ("weight", .num 185), ("debut", .str "200101"),
        ("updatedAt", .str "2023-06-01T00:00:00Z")]

end PySumo

namespace PySumo

/-! ## Helper lemmas -/

/-- The `datetime` constructor never rejects day 1. -/
theorem one_le_daysInMonth (y m : Int) : 1 ≤ daysInMonth y m := by
  unfold daysInMonth
  split_ifs <;> norm_num

/-- The `datetime(y, m, 1)` constructor succeeds on an in-range year and
month. -/
theorem mkDatetime_valid {y m : Int} (hy1 : 1 ≤ y) (hy2 : y ≤ 9999)
    (hm1 : 1 ≤ m) (hm2 : m ≤ 12) :
    mkDatetime y m 1 = some { year := y, month := m, day := 1 } := by
  have hd := one_le_daysInMonth y m
  unfold mkDatetime
  rw [if_pos]
  simp only [decide_eq_true_eq, Bool.and_eq_true]
  exact ⟨⟨⟨⟨⟨hy1, hy2⟩, hm1⟩, hm2⟩, le_refl 1⟩, hd⟩

/-- Any instant of a strictly earlier calendar month precedes the first of
the month. -/
theorem ltb_first_of_later_month {now : PyDateTime} {y m : Int}
    (h : now.year < y ∨ (now.year = y ∧ now.month < m)) :
    PyDateTime.ltb now { year := y, month := m, day := 1 } = true := by
  unfold PyDateTime.ltb
  rcases h with h | ⟨h1, h2⟩
  · rw [if_pos (by exact Int.ne_of_lt h)]
    simpa using h
  · rw [if_neg (by simpa using h1), if_pos (by exact Int.ne_of_lt h2)]
    simpa using h2

/-- With the client unopened, `_make_request` raises `RuntimeError`. -/
theorem makeRequestPre_closed {st : ClientState} (h : st.clientOpen = false)
    (method path : String) (params : List (String × String)) :
    isRuntimeErr (makeRequestPre st method path params) = true := by
  simp [makeRequestPre, h, isRuntimeErr]

/-- With the client opened, `_make_request` hands the request to the
transport. -/
theorem makeRequestPre_open {st : ClientState} (h : st.clientOpen = true)
    (method path : String) (params : List (String × String)) :
    isOkResult (makeRequestPre st method path params) = true := by
  simp [makeRequestPre, h, isOkResult]

/-- When every attempt up to the budget is transient, the retry loop uses
the whole budget and surfaces the last outcome. -/
theorem runRetry_all_transient (outcomes : Nat → AttemptOutcome) :
    ∀ (n k : Nat), (∀ i, i ≤ n → isTransient (outcomes (k + i)) = true) →
      runRetry outcomes k n = (k + n + 1, outcomes (k + n)) := by
  intro n
  induction n with
  | zero => intro k _; simp [runRetry]
  | succ n ih =>
    intro k h
    have h0 : isTransient (outcomes k) = true := by simpa using h 0 (by omega)
    have hrec := ih (k + 1) (fun i hi => by
      have := h (i + 1) (by omega)
      simpa [Nat.add_assoc, Nat.add_comm 1 i] using this)
    simp only [runRetry, h0, if_pos]
    rw [hrec]
    have e : k + 1 + n = k + (n + 1) := by omega
    rw [e]

/-- A transient outcome surfaces as the matching error through
`raise_for_status`. -/
theorem outcomeResult_of_transient {o : AttemptOutcome}
    (h : isTransient o = true) : outcomeResult o = .error (outcomeError o) := by
  cases o with
  | connectionFailure => rfl
  | timeoutExpired => rfl
  | response status body =>
    have h48 : status = 408 ∨ status = 429 := by
      simpa [isTransient] using h
    simp only [outcomeResult, outcomeError]
    rw [if_pos]
    rcases h48 with h | h <;> simp [h]

/-- Sorting with the descending key comparison yields a descending-sorted
list. -/
theorem pySortByKey_sorted_desc {α : Type} (key : α → String) (l : List α) :
    (pySortByKey key l true).Pairwise (fun a b => key b ≤ key a) := by
  have h := @List.sorted_mergeSort α
    (fun a b : α => decide (key b ≤ key a))
    (fun a b c hab hbc => by
      simp only [decide_eq_true_eq] at *
      exact le_trans hbc hab)
    (fun a b => by
      rcases le_total (key b) (key a) with h | h <;> simp [h]) l
  simpa [pySortByKey] using h.imp (fun hab => of_decide_eq_true hab)

/-- Sorting with the ascending key comparison yields an ascending-sorted
list. -/
theorem pySortByKey_sorted_asc {α : Type} (key : α → String) (l : List α) :
    (pySortByKey key l false).Pairwise (fun a b => key a ≤ key b) := by
  have h := @List.sorted_mergeSort α
    (fun a b : α => decide (key a ≤ key b))
    (fun a b c hab hbc => by
      simp only [decide_eq_true_eq] at *
      exact le_trans hab hbc)
    (fun a b => by
      rcases le_total (key a) (key b) with h | h <;> simp [h]) l
  simpa [pySortByKey] using h.imp (fun hab => of_decide_eq_true hab)

/-- `pySortByKey` permutes its input. -/
theorem pySortByKey_perm {α : Type} (key : α → String) (l : List α)
    (reverse : Bool) : (pySortByKey key l reverse).Perm l := by
  cases reverse <;> simp [pySortByKey] <;> exact List.mergeSort_perm _ _

/-! ## Claim theorems -/

/-- C2: when the transport fails with a transient error on every attempt
within the retry budget, the dispatcher makes exactly `retries + 1` attempts
and raises the error of the last attempt; the retry budget of the transport
built by `__aenter__` is the configured `retries`. -/
theorem c2_retry_exhaustion (st : ClientState) (outcomes : Nat → AttemptOutcome)
    (h : ∀ i, i ≤ st.retries → isTransient (outcomes i) = true) :
    dispatch (aenter st).2.retryTotal outcomes
      = (st.retries + 1, .error (outcomeError (outcomes st.retries))) := by
  have hrun := runRetry_all_transient outcomes st.retries 0
    (fun i hi => by simpa using h i hi)
  have hbudget : (aenter st).2.retryTotal = st.retries := rfl
  rw [hbudget]
  simp only [dispatch]
  rw [hrun]
  simp only [Nat.zero_add]
  rw [outcomeResult_of_transient (h st.retries (le_refl _))]

/-- Witness for C2: four timeouts against the default budget of 3 retries
surface the timeout after exactly 4 attempts. -/
theorem c2_retry_exhaustion_witness :
    dispatch (aenter closedState).2.retryTotal (fun _ => .timeoutExpired)
      = (4, .error (.transportError .timeoutExpired)) :=
  c2_retry_exhaustion closedState (fun _ => .timeoutExpired) (fun _ _ => rfl)

/-- C3: a non-retryable 4xx status (not 408 or 429) is not transient, so the
dispatcher makes exactly one attempt and raises the status error carrying
the remote status code and the response body. -/
theorem c3_non_retryable_4xx (retryTotal : Nat) (outcomes : Nat → AttemptOutcome)
    (status : Nat) (body : Json)
    (h0 : outcomes 0 = .response status body)
    (h4 : 400 ≤ status) (h5 : status < 500)
    (h408 : status ≠ 408) (h429 : status ≠ 429) :
    isTransient (outcomes 0) = false
    ∧ dispatch retryTotal outcomes = (1, .error (.httpStatusError status body)) := by
  have ht : isTransient (outcomes 0) = false := by
    rw [h0]
    simp only [isTransient, Bool.or_eq_false_iff]
    constructor <;> simpa using by omega
  refine ⟨ht, ?_⟩
  have hrr : runRetry outcomes 0 retryTotal = (1, outcomes 0) := by
    cases retryTotal with
    | zero => simp [runRetry]
    | succ n => simp [runRetry, ht]
  simp only [dispatch]
  rw [hrr, h0]
  simp only [outcomeResult]
  rw [if_pos]
  simp only [Bool.and_eq_true, decide_eq_true_eq]
  omega

/-- Witness for C3: a 404 with a body is surfaced after one attempt. -/
theorem c3_non_retryable_4xx_witness :
    isTransient ((fun _ => AttemptOutcome.response 404 (.str "Not Found")) 0) = false
    ∧ dispatch 3 (fun _ => AttemptOutcome.response 404 (.str "Not Found"))
        = (1, .error (.httpStatusError 404 (.str "Not Found"))) :=
  c3_non_retryable_4xx 3 (fun _ => AttemptOutcome.response 404 (.str "Not Found"))
    404 (.str "Not Found") rfl (by omega) (by omega) (by omega) (by omega)

/-- C8 (amended): the constructor recognizes exactly `base_url`, a single
optional `timeout` and `retries`; the transport built on `__aenter__` uses
that timeout as its only timeout, a retry total equal to `retries`, and a
fixed backoff factor of 0.5 that no constructor argument controls. -/
theorem c8_transport_config (b : String) (t : Option ℚ) (r : Nat) :
    constructorParams = ["base_url", "timeout", "retries"]
    ∧ (aenter (SumoClient.init b t r)).2
        = { retryTotal := r, retryBackoffFactor := 1/2, timeout := t }
    ∧ (aenter (SumoClient.init b t r)).1.clientOpen = true :=
  ⟨rfl, rfl, rfl⟩

/-- Counterexample for C8 as stated: the constructor accepts no
`connect_timeout`, `read_timeout` or `retry_backoff_factor` option. -/
theorem c8_counterexample :
    constructorParams.contains "connect_timeout" = false
    ∧ constructorParams.contains "read_timeout" = false
    ∧ constructorParams.contains "retry_backoff_factor" = false := by
  decide

/-- C10: `get_measurements`, `get_ranks` and `get_shikonas` return the
parsed records sorted locally by `basho_id`: descending for sort order
`"desc"` (the source default) and ascending for `"asc"`; the sorted output
is a permutation of the parsed records. -/
theorem c10_sorted_by_basho_id (ms : List Measurement) (rs : List Rank)
    (ss : List Shikona) :
    ((processMeasurements ms (some "desc")).Pairwise
        (fun a b => b.basho_id ≤ a.basho_id)
      ∧ (processMeasurements ms (some "desc")).Perm ms
      ∧ (processMeasurements ms (some "asc")).Pairwise
          (fun a b => a.basho_id ≤ b.basho_id)
      ∧ (processMeasurements ms (some "asc")).Perm ms)
    ∧ ((processRanks rs (some "desc")).Pairwise
        (fun a b => b.basho_id ≤ a.basho_id)
      ∧ (processRanks rs (some "desc")).Perm rs
      ∧ (processRanks rs (some "asc")).Pairwise
          (fun a b => a.basho_id ≤ b.basho_id)
      ∧ (processRanks rs (some "asc")).Perm rs)
    ∧ ((processShikonas ss (some "desc")).Pairwise
        (fun a b => b.basho_id ≤ a.basho_id)
      ∧ (processShikonas ss (some "desc")).Perm ss
      ∧ (processShikonas ss (some "asc")).Pairwise
          (fun a b => a.basho_id ≤ b.basho_id)
      ∧ (processShikonas ss (some "asc")).Perm ss) := by
  exact ⟨⟨pySortByKey_sorted_desc _ ms, pySortByKey_perm _ ms true,
          pySortByKey_sorted_asc _ ms, pySortByKey_perm _ ms false⟩,
         ⟨pySortByKey_sorted_desc _ rs, pySortByKey_perm _ rs true,
          pySortByKey_sorted_asc _ rs, pySortByKey_perm _ rs false⟩,
         ⟨pySortByKey_sorted_desc _ ss, pySortByKey_perm _ ss true,
          pySortByKey_sorted_asc _ ss, pySortByKey_perm _ ss false⟩⟩

/-- C4: a payload shaped like the remote schema parses into a `Rikishi`
record whose every field equals the corresponding source JSON value under
the declared alias renaming; in particular the remote key `shikonaEn` maps
to the internal field `shikona_en` with an identical value. -/
theorem c4_parse_renaming (j : Json) (i : Int)
    (se sj cr hy bd ua : String)
    (osid onid oh ow : Option Int) (oshu odeb : Option String)
    (orh : Option (List Rank)) (oskh : Option (List Shikona))
    (omh : Option (List Measurement))
    (hid : j.lookup "id" = some (.num i))
    (hse : j.lookup "shikonaEn" = some (.str se))
    (hsj : j.lookup "shikonaJp" = some (.str sj))
    (hcr : j.lookup "currentRank" = some (.str cr))
    (hhy : j.lookup "heya" = some (.str hy))
    (hbd : j.lookup "birthDate" = some (.str bd))
    (hua : j.lookup "updatedAt" = some (.str ua))
    (hsid : optFieldInt j "sumodbId" = some osid)
    (hnid : optFieldInt j "nskId" = some onid)
    (hshu : optFieldStr j "shusshin" = some oshu)
    (hh : optFieldInt j "height" = some oh)
    (hw : optFieldInt j "weight" = some ow)
    (hdeb : optFieldStr j "debut" = some odeb)
    (hrh : optFieldList j "rankHistory" Rank.parse = some orh)
    (hskh : optFieldList j "shikonaHistory" Shikona.parse = some oskh)
    (hmh : optFieldList j "measurementHistory" Measurement.parse = some omh) :
    Rikishi.parse j = some
      { id := i, sumodb_id := osid, nsk_id := onid, shikona_en := se,
        shikona_jp := sj, current_rank := cr, heya := hy, birth_date := bd,
        shusshin := oshu, height := oh, weight := ow, debut := odeb,
        rank_history := orh, shikona_history := oskh,
        measurement_history := omh, updated_at := ua }
    ∧ (Rikishi.parse j).map Rikishi.shikona_en = some se := by
  have hparse : Rikishi.parse j = some
      { id := i, sumodb_id := osid, nsk_id := onid, shikona_en := se,
        shikona_jp := sj, current_rank := cr, heya := hy, birth_date := bd,
        shusshin := oshu, height := oh, weight := ow, debut := odeb,
        rank_history := orh, shikona_history := oskh,
        measurement_history := omh, updated_at := ua } := by
    simp [Rikishi.parse, reqInt, reqStr, hid, hse, hsj, hcr, hhy, hbd, hua,
          hsid, hnid, hshu, hh, hw, hdeb, hrh, hskh, hmh]
  exact ⟨hparse, by rw [hparse]; rfl⟩

/-- Witness for C4: the sample `/rikishi/1511` payload parses with
`shikona_en = "Terunofuji Haruo"`, the value of its `shikonaEn` key. -/
theorem c4_parse_renaming_witness :
    Rikishi.parse rikishiPayload = some
      { id := 1511, sumodb_id := some 11927, nsk_id := some 3321,
        shikona_en := "Terunofuji Haruo", shikona_jp := "Terunofuji",
        current_rank := "Yokozuna 1 East", heya := "Isegahama",
        birth_date := "1991-11-29T00:00:00Z",
        shusshin := some "Mongolia, Ulaanbaatar", height := some 192,
        weight := some 185, debut := some "200101", rank_history := none,
        shikona_history := none, measurement_history := none,
        updated_at := "2023-06-01T00:00:00Z" }
    ∧ (Rikishi.parse rikishiPayload).map Rikishi.shikona_en
        = some "Terunofuji Haruo" :=
  c4_parse_renaming rikishiPayload 1511 "Terunofuji Haruo" "Terunofuji"
    "Yokozuna 1 East" "Isegahama" "1991-11-29T00:00:00Z"
    "2023-06-01T00:00:00Z" (some 11927) (some 3321) (some 192) (some 185)
    (some "Mongolia, Ulaanbaatar") (some "200101") none none none
    rfl rfl rfl rfl rfl rfl rfl rfl rfl rfl rfl rfl rfl rfl rfl rfl

/-- C5: a 6-digit basho ID whose YYYYMM value resolves to a calendar month
strictly after the current one is rejected with the future-basho
`ValueError` by `get_basho`, `get_banzuke` and `get_torikumi`, before any
HTTP request. -/
theorem c5_future_basho_rejected (st : ClientState) (now : PyDateTime)
    (b : String) (y m : Int)
    (h6 : valid6 b = true)
    (hy : pyInt (b.take 4) = some y) (hm : pyInt (b.drop 4) = some m)
    (hy1 : 1 ≤ y) (hy2 : y ≤ 9999) (hm1 : 1 ≤ m) (hm2 : m ≤ 12)
    (hfut : now.year < y ∨ (now.year = y ∧ now.month < m)) :
    get_basho st now b = .error (.valueError "Cannot get details for future basho")
    ∧ (∀ division, get_banzuke st now b division
        = .error (.valueError "Cannot fetch future basho"))
    ∧ (∀ division day, get_torikumi st now b division day
        = .error (.valueError "Cannot fetch future basho")) := by
  have hmk := mkDatetime_valid hy1 hy2 hm1 hm2
  have hlt := ltb_first_of_later_month hfut
  refine ⟨?_, fun division => ?_, fun division day => ?_⟩
  · simp [get_basho, h6, hy, hm, hmk, hlt]
  · simp [get_banzuke, hy, hm, hmk, hlt]
  · simp [get_torikumi, hy, hm, hmk, hlt]

/-- Witness for C5: basho "203001" is in the future on 2025-10-12. -/
theorem c5_future_basho_rejected_witness :
    get_basho openState nowSample "203001"
      = .error (.valueError "Cannot get details for future basho")
    ∧ get_banzuke openState nowSample "203001" "Makuuchi"
      = .error (.valueError "Cannot fetch future basho")
    ∧ get_torikumi openState nowSample "203001" "Makuuchi" 1
      = .error (.valueError "Cannot fetch future basho") := by
  obtain ⟨h1, h2, h3⟩ := c5_future_basho_rejected openState nowSample "203001"
    2030 1 (by decide) (by decide) (by decide) (by decide) (by decide)
    (by decide) (by decide) (Or.inl (by decide))
  exact ⟨h1, h2 "Makuuchi", h3 "Makuuchi" 1⟩

/-- C6: with a parseable, non-future basho ID, a division outside the fixed
6-value set is rejected with `ValueError("Invalid division")` by
`get_banzuke` and `get_torikumi`, before any HTTP request. -/
theorem c6_invalid_division_rejected (st : ClientState) (now : PyDateTime)
    (b division : String) (y m : Int) (dt : PyDateTime)
    (hy : pyInt (b.take 4) = some y) (hm : pyInt (b.drop 4) = some m)
    (hmk : mkDatetime y m 1 = some dt)
    (hpast : PyDateTime.ltb now dt = false)
    (hdiv : division ∉ validDivisions) :
    get_banzuke st now b division = .error (.valueError "Invalid division")
    ∧ ∀ day, get_torikumi st now b division day
        = .error (.valueError "Invalid division") := by
  refine ⟨?_, fun day => ?_⟩
  · simp [get_banzuke, hy, hm, hmk, hpast, hdiv]
  · simp [get_torikumi, hy, hm, hmk, hpast, hdiv]

/-- Witness for C6: the lowercase division "makuuchi" is rejected for the
past basho "202301". -/
theorem c6_invalid_division_rejected_witness :
    get_banzuke openState nowSample "202301" "makuuchi"
      = .error (.valueError "Invalid division")
    ∧ get_torikumi openState nowSample "202301" "makuuchi" 5
      = .error (.valueError "Invalid division") := by
  obtain ⟨h1, h2⟩ := c6_invalid_division_rejected openState nowSample "202301"
    "makuuchi" 2023 1 { year := 2023, month := 1, day := 1 }
    (by decide) (by decide) (by decide) (by decide) (by decide)
  exact ⟨h1, h2 5⟩

/-- C1 (amended): `get_basho` rejects every basho ID that is not exactly 6
digits; `get_rikishi_matches`, `get_rikishi_opponent_matches`,
`get_measurements`, `get_ranks` and `get_shikonas` reject every non-empty
such ID (given otherwise-valid companion arguments); `get_banzuke` and
`get_torikumi` instead validate the ID only by parsing `id[:4]` and `id[4:]`
as integers for the date check, raising `ValueError` when a slice fails to
parse — which accepts some non-6-digit IDs. All rejections happen before
any HTTP request. -/
theorem c1_basho_id_validation (st : ClientState) (now : PyDateTime) :
    (∀ b, valid6 b = false →
        isValueError (get_basho st now b) = true)
    ∧ (∀ rid b, 0 < rid → b ≠ "" → valid6 b = false →
        isValueError (get_rikishi_matches st rid (some b)) = true)
    ∧ (∀ rid oid b, 0 < rid → 0 < oid → b ≠ "" → valid6 b = false →
        isValueError (get_rikishi_opponent_matches st rid oid (some b)) = true)
    ∧ (∀ b rid so, b ≠ "" → valid6 b = false →
        isValueError (get_measurements st (some b) rid so) = true)
    ∧ (∀ b rid so, b ≠ "" → valid6 b = false →
        isValueError (get_ranks st (some b) rid so) = true)
    ∧ (∀ b rid so, b ≠ "" → valid6 b = false →
        isValueError (get_shikonas st (some b) rid so) = true)
    ∧ (∀ b division, pyInt (b.take 4) = none ∨ pyInt (b.drop 4) = none →
        isValueError (get_banzuke st now b division) = true)
    ∧ (∀ b division day, pyInt (b.take 4) = none ∨ pyInt (b.drop 4) = none →
        isValueError (get_torikumi st now b division day) = true) := by
  refine ⟨?_, ?_, ?_, ?_, ?_, ?_, ?_, ?_⟩
  · intro b h6
    simp [get_basho, h6, isValueError]
  · intro rid b hr hb h6
    have h1 : ¬(rid ≤ 0) := by omega
    simp [get_rikishi_matches, isValueError, optStrTruthy, h1, h6, hb]
  · intro rid oid b hr ho hb h6
    have h1 : ¬(rid ≤ 0) := by omega
    have h2 : ¬(oid ≤ 0) := by omega
    simp [get_rikishi_opponent_matches, isValueError, optStrTruthy, h1, h2, h6, hb]
  · intro b rid so hb h6
    simp [get_measurements, isValueError, optStrTruthy, hb, h6]
  · intro b rid so hb h6
    simp [get_ranks, isValueError, optStrTruthy, hb, h6]
  · intro b rid so hb h6
    simp [get_shikonas, isValueError, optStrTruthy, hb, h6]
  · intro b division h
    cases htake : pyInt (b.take 4) with
    | none =>
      cases hdrop : pyInt (b.drop 4) with
      | none => unfold get_banzuke; rw [htake, hdrop]; all_goals exact rfl
      | some m => unfold get_banzuke; rw [htake, hdrop]; all_goals exact rfl
    | some y =>
      cases hdrop : pyInt (b.drop 4) with
      | none => unfold get_banzuke; rw [htake, hdrop]; all_goals exact rfl
      | some m =>
        rcases h with h | h
        · rw [htake] at h; exact absurd h (by simp)
        · rw [hdrop] at h; exact absurd h (by simp)
  · intro b division day h
    cases htake : pyInt (b.take 4) with
    | none =>
      cases hdrop : pyInt (b.drop 4) with
      | none => unfold get_torikumi; rw [htake, hdrop]; all_goals exact rfl
      | some m => unfold get_torikumi; rw [htake, hdrop]; all_goals exact rfl
    | some y =>
      cases hdrop : pyInt (b.drop 4) with
      | none => unfold get_torikumi; rw [htake, hdrop]; all_goals exact rfl
      | some m =>
        rcases h with h | h
        · rw [htake] at h; exact absurd h (by simp)
        · rw [hdrop] at h; exact absurd h (by simp)

/-- Counterexample for C1 as stated: "2023011" is not exactly 6 digits, yet
`get_banzuke` raises no error and issues the HTTP request. -/
theorem c1_counterexample :
    valid6 "2023011" = false
    ∧ isValueError (get_banzuke openState nowSample "2023011" "Makuuchi") = false
    ∧ isOkResult (get_banzuke openState nowSample "2023011" "Makuuchi") = true :=
  ⟨by decide, by decide, by decide⟩

/-- Witness for C1 (amended), at concrete malformed basho IDs. -/
theorem c1_basho_id_validation_witness :
    isValueError (get_basho openState nowSample "20230") = true
    ∧ isValueError (get_rikishi_matches openState 1 (some "20230")) = true
    ∧ isValueError (get_rikishi_opponent_matches openState 1 2 (some "20230")) = true
    ∧ isValueError (get_measurements openState (some "20230") none none) = true
    ∧ isValueError (get_ranks openState (some "20230") none none) = true
    ∧ isValueError (get_shikonas openState (some "20230") none none) = true
    ∧ isValueError (get_banzuke openState nowSample "abc123" "Makuuchi") = true
    ∧ isValueError (get_torikumi openState nowSample "abc123" "Makuuchi" 1) = true := by
  obtain ⟨h1, h2, h3, h4, h5, h6, h7, h8⟩ := c1_basho_id_validation openState nowSample
  exact ⟨h1 "20230" (by decide),
         h2 1 "20230" (by decide) (by decide) (by decide),
         h3 1 2 "20230" (by decide) (by decide) (by decide) (by decide),
         h4 "20230" none none (by decide) (by decide),
         h5 "20230" none none (by decide) (by decide),
         h6 "20230" none none (by decide) (by decide),
         h7 "abc123" "Makuuchi" (Or.inl (by decide)),
         h8 "abc123" "Makuuchi" 1 (Or.inl (by decide))⟩

/-- C7 (amended): `get_kimarite` and `get_kimarite_matches` raise
`ValueError` before any HTTP request for a non-positive limit or a negative
skip, and `get_kimarite_matches` also for a limit above 1000; but
`get_kimarite` enforces no upper bound on limit, and `get_rikishis`
performs no pagination validation at all — both issue the request. -/
theorem c7_pagination_validation (st : ClientState) :
    (∀ sf so l sk lv, l = some lv → lv ≤ 0 →
        isValueError (get_kimarite st sf so l sk) = true)
    ∧ (∀ sf so l skv, skv < 0 →
        isValueError (get_kimarite st sf so l (some skv)) = true)
    ∧ (∀ k so l sk lv, l = some lv → (lv ≤ 0 ∨ 1000 < lv) →
        isValueError (get_kimarite_matches st k so l sk) = true)
    ∧ (∀ k so l skv, skv < 0 →
        isValueError (get_kimarite_matches st k so l (some skv)) = true)
    ∧ (∀ l : Int, st.clientOpen = true → 0 < l →
        isOkResult (get_kimarite st none (some "asc") (some l) (some 0)) = true)
    ∧ (∀ se hy sid nid intai me ra sh li sk, st.clientOpen = true →
        isOkResult (get_rikishis st se hy sid nid intai me ra sh li sk) = true) := by
  refine ⟨?_, ?_, ?_, ?_, ?_, ?_⟩
  · intro sf so l sk lv hl hlv
    subst hl
    unfold get_kimarite
    split_ifs <;> first | rfl | (exfalso; simp_all)
  · intro sf so l skv hskv
    unfold get_kimarite
    split_ifs <;> first | rfl | simp [hskv, isValueError]
  · intro k so l sk lv hl hlv
    subst hl
    unfold get_kimarite_matches
    split_ifs <;> first | rfl | (exfalso; simp_all <;> omega)
  · intro k so l skv hskv
    unfold get_kimarite_matches
    split_ifs <;> first | rfl | simp [hskv, isValueError]
  · intro l hopen hl
    simp [get_kimarite, optStrTruthy, makeRequestPre, hopen, isOkResult,
          show ¬(l ≤ 0) from by omega]
  · intro se hy sid nid intai me ra sh li sk hopen
    simp [get_rikishis, makeRequestPre, hopen, isOkResult]

/-- Counterexample for C7 as stated: `get_rikishis` accepts a negative
limit and skip without any error and issues the HTTP request. -/
theorem c7_counterexample :
    isValueError
      (get_rikishis openState none none none none none true true true (-1) (-5))
      = false
    ∧ isOkResult
        (get_rikishis openState none none none none none true true true (-1) (-5))
        = true :=
  ⟨by decide, by decide⟩

/-- Witness for C7 (amended), at concrete pagination arguments. -/
theorem c7_pagination_validation_witness :
    isValueError (get_kimarite openState none (some "asc") (some 0) (some 0)) = true
    ∧ isValueError (get_kimarite openState none (some "asc") none (some (-1))) = true
    ∧ isValueError
        (get_kimarite_matches openState "uwatenage" (some "asc") (some 2000) (some 0))
        = true
    ∧ isValueError
        (get_kimarite_matches openState "uwatenage" (some "asc") none (some (-2)))
        = true
    ∧ isOkResult (get_kimarite openState none (some "asc") (some 5000) (some 0)) = true
    ∧ isOkResult
        (get_rikishis openState none none none none none true true true (-1) (-5))
        = true := by
  obtain ⟨h1, h2, h3, h4, h5, h6⟩ := c7_pagination_validation openState
  exact ⟨h1 none (some "asc") (some 0) (some 0) 0 rfl (by omega),
         h2 none (some "asc") none (-1) (by omega),
         h3 "uwatenage" (some "asc") (some 2000) (some 0) 2000 rfl (Or.inr (by omega)),
         h4 "uwatenage" (some "asc") none (-2) (by omega),
         h5 5000 rfl (by omega),
         h6 none none none none none true true true (-1) (-5) rfl⟩

set_option maxHeartbeats 2000000 in
/-- C9: `__aexit__` always leaves `self._client` unset, and every endpoint
method called on a client whose `self._client` is unset raises
`RuntimeError` before any network activity — for every choice of arguments
that passes the local validation (expressed as: the same call on an opened
client reaches the transport). -/
theorem c9_uninitialized_client (st stOff : ClientState)
    (hon : st.clientOpen = true) (hoff : stOff.clientOpen = false) :
    (∀ s, (aexit s).clientOpen = false)
    ∧ (∀ rid, isOkResult (get_rikishi st rid) = true →
        isRuntimeErr (get_rikishi stOff rid) = true)
    ∧ (∀ rid, isOkResult (get_rikishi_stats st rid) = true →
        isRuntimeErr (get_rikishi_stats stOff rid) = true)
    ∧ (∀ se hy sid nid intai me ra sh li sk,
        isOkResult (get_rikishis st se hy sid nid intai me ra sh li sk) = true →
        isRuntimeErr (get_rikishis stOff se hy sid nid intai me ra sh li sk) = true)
    ∧ (∀ rid b, isOkResult (get_rikishi_matches st rid b) = true →
        isRuntimeErr (get_rikishi_matches stOff rid b) = true)
    ∧ (∀ rid oid b,
        isOkResult (get_rikishi_opponent_matches st rid oid b) = true →
        isRuntimeErr (get_rikishi_opponent_matches stOff rid oid b) = true)
    ∧ (∀ now b, isOkResult (get_basho st now b) = true →
        isRuntimeErr (get_basho stOff now b) = true)
    ∧ (∀ now b d, isOkResult (get_banzuke st now b d) = true →
        isRuntimeErr (get_banzuke stOff now b d) = true)
    ∧ (∀ now b d day, isOkResult (get_torikumi st now b d day) = true →
        isRuntimeErr (get_torikumi stOff now b d day) = true)
    ∧ (∀ sf so l sk, isOkResult (get_kimarite st sf so l sk) = true →
        isRuntimeErr (get_kimarite stOff sf so l sk) = true)
    ∧ (∀ k so l sk, isOkResult (get_kimarite_matches st k so l sk) = true →
        isRuntimeErr (get_kimarite_matches stOff k so l sk) = true)
    ∧ (∀ b rid so, isOkResult (get_measurements st b rid so) = true →
        isRuntimeErr (get_measurements stOff b rid so) = true)
    ∧ (∀ b rid so, isOkResult (get_ranks st b rid so) = true →
        isRuntimeErr (get_ranks stOff b rid so) = true)
    ∧ (∀ b rid so, isOkResult (get_shikonas st b rid so) = true →
        isRuntimeErr (get_shikonas stOff b rid so) = true) := by
  refine ⟨?_, ?_, ?_, ?_, ?_, ?_, ?_, ?_, ?_, ?_, ?_, ?_, ?_, ?_⟩
  · intro s
    unfold aexit
    split_ifs with h
    · rfl
    · simpa using h
  · intro rid _
    exact makeRequestPre_closed hoff _ _ _
  · intro rid _
    exact makeRequestPre_closed hoff _ _ _
  · intro se hy sid nid intai me ra sh li sk _
    exact makeRequestPre_closed hoff _ _ _
  · intro rid b hOk
    unfold get_rikishi_matches at hOk ⊢
    repeat' split at hOk
    all_goals simp_all [isOkResult, isRuntimeErr, makeRequestPre]
    all_goals repeat rw [if_neg (by first | omega | tauto | (simp_all <;> omega))]
  · intro rid oid b hOk
    unfold get_rikishi_opponent_matches at hOk ⊢
    repeat' split at hOk
    all_goals simp_all [isOkResult, isRuntimeErr, makeRequestPre]
    all_goals repeat rw [if_neg (by first | omega | tauto | (simp_all <;> omega))]
  · intro now b hOk
    unfold get_basho at hOk ⊢
    repeat' split at hOk
    all_goals simp_all [isOkResult, isRuntimeErr, makeRequestPre]
    all_goals repeat rw [if_neg (by first | omega | tauto | (simp_all <;> omega))]
  · intro now b d hOk
    unfold get_banzuke at hOk ⊢
    repeat' split at hOk
    all_goals simp_all [isOkResult, isRuntimeErr, makeRequestPre]
    all_goals repeat rw [if_neg (by first | omega | tauto | (simp_all <;> omega))]
  · intro now b d day hOk
    unfold get_torikumi at hOk ⊢
    repeat' split at hOk
    all_goals simp_all [isOkResult, isRuntimeErr, makeRequestPre]
    all_goals repeat rw [if_neg (by first | omega | tauto | (simp_all <;> omega))]
  · intro sf so l sk hOk
    unfold get_kimarite at hOk ⊢
    repeat' split at hOk
    all_goals simp_all [isOkResult, isRuntimeErr, makeRequestPre]
    all_goals repeat rw [if_neg (by first | omega | tauto | (simp_all <;> omega))]
  · intro k so l sk hOk
    unfold get_kimarite_matches at hOk ⊢
    repeat' split at hOk
    all_goals simp_all [isOkResult, isRuntimeErr, makeRequestPre]
    all_goals repeat rw [if_neg (by first | omega | tauto | (simp_all <;> omega))]
  · intro b rid so hOk
    unfold get_measurements at hOk ⊢
    repeat' split at hOk
    all_goals simp_all [isOkResult, isRuntimeErr, makeRequestPre]
    all_goals repeat rw [if_neg (by first | omega | tauto | (simp_all <;> omega))]
  · intro b rid so hOk
    unfold get_ranks at hOk ⊢
    repeat' split at hOk
    all_goals simp_all [isOkResult, isRuntimeErr, makeRequestPre]
    all_goals repeat rw [if_neg (by first | omega | tauto | (simp_all <;> omega))]
  · intro b rid so hOk
    unfold get_shikonas at hOk ⊢
    repeat' split at hOk
    all_goals simp_all [isOkResult, isRuntimeErr, makeRequestPre]
    all_goals repeat rw [if_neg (by first | omega | tauto | (simp_all <;> omega))]

/-- Witness for C9 at concrete valid calls on a never-entered client. -/
theorem c9_uninitialized_client_witness :
    (aexit openState).clientOpen = false
    ∧ isRuntimeErr (get_rikishi closedState "1511") = true
    ∧ isRuntimeErr (get_rikishi_stats closedState "1511") = true
    ∧ isRuntimeErr
        (get_rikishis closedState none none none none none true true true 10 0) = true
    ∧ isRuntimeErr (get_rikishi_matches closedState 1 none) = true
    ∧ isRuntimeErr (get_rikishi_opponent_matches closedState 1 2 none) = true
    ∧ isRuntimeErr (get_basho closedState nowSample "202509") = true
    ∧ isRuntimeErr (get_banzuke closedState nowSample "202509" "Makuuchi") = true
    ∧ isRuntimeErr (get_torikumi closedState nowSample "202509" "Makuuchi" 3) = true
    ∧ isRuntimeErr (get_kimarite closedState none (some "asc") none (some 0)) = true
    ∧ isRuntimeErr
        (get_kimarite_matches closedState "uwatenage" (some "asc") none (some 0)) = true
    ∧ isRuntimeErr (get_measurements closedState (some "202509") none (some "desc")) = true
    ∧ isRuntimeErr (get_ranks closedState (some "202509") none (some "desc")) = true
    ∧ isRuntimeErr (get_shikonas closedState (some "202509") none (some "desc")) = true := by
  obtain ⟨h0, h1, h2, h3, h4, h5, h6, h7, h8, h9, h10, h11, h12, h13⟩ :=
    c9_uninitialized_client openState closedState rfl rfl
  exact ⟨h0 openState, h1 "1511" (by decide), h2 "1511" (by decide),
         h3 none none none none none true true true 10 0 (by decide),
         h4 1 none (by decide), h5 1 2 none (by decide),
         h6 nowSample "202509" (by decide),
         h7 nowSample "202509" "Makuuchi" (by decide),
         h8 nowSample "202509" "Makuuchi" 3 (by decide),
         h9 none (some "asc") none (some 0) (by decide),
         h10 "uwatenage" (some "asc") none (some 0) (by decide),
         h11 (some "202509") none (some "desc") (by decide),
         h12 (some "202509") none (some "desc") (by decide),
         h13 (some "202509") none (some "desc") (by decide)⟩

end PySumo
